import Mathlib

/-!
# k8s-pod-restart-info-collector: the Feishu notifier and the backend switch

A shallow embedding of `feishu.go` and `main.go`.

* Go strings are Lean strings; a Go `error` is an `Option GoError` (`none` is `nil`).
* A Go `map[string]time.Time` is `Option (List (String × Time))`: `none` is the nil
  map, `some es` an allocated map holding the entries `es`.
* The operating system and the libraries the program calls (the environment, the
  `strconv`, `flag`, `text/template`, `dedent`, `lark` and `client-go` packages) are
  either modelled from their documented behaviour (`Getenv`, `Atoi`, `FlagSet`) or
  passed in as parameters (`Externals`, `ClientGo`, `SlackPkg`).
* `klog` output is recorded only where a function is modelled with its effects
  (`sendToRobot`); it never influences a returned value.
-/

namespace PodRestart

/-! ## Go runtime values -/

/-- A Go `error` value, identified by its message. -/
structure GoError where
  msg : String
  deriving DecidableEq, Repr

/-- A `time.Time`, as nanoseconds since the epoch. -/
abbrev Time := Int

/-- One second as a `time.Duration` (nanoseconds). -/
def Second : Int := 1000000000

/-- A Go `map[string]time.Time`: `none` is the nil map. -/
abbrev TimeMap := Option (List (String × Time))

/-- The expression `make(map[string]time.Time)`. -/
def makeMap : TimeMap := some []

/-- The two-result index expression `v, ok := m[key]`; a nil map holds nothing. -/
def mapLookup (m : TimeMap) (key : String) : Option Time :=
  match m with
  | none => none
  | some es => (es.find? (fun e => e.1 == key)).map (fun e => e.2)

/-- The process environment: the variables that are set, with their values. -/
abbrev Environ := String → Option String

/-- The call `os.Getenv(key)`: the value, or the empty string when `key` is unset. -/
def Getenv (env : Environ) (key : String) : String :=
  match env key with
  | some v => v
  | none => ""

/-! ## strconv.Atoi (base 10, 64-bit `int`) -/

/-- The two errors of `strconv`: `ErrSyntax` and `ErrRange`. -/
inductive NumError where
  | ErrSyntax
  | ErrRange
  deriving DecidableEq, Repr

/-- The constant `strconv.IntSize` on a 64-bit platform. -/
def IntSize : Nat := 64

/-- The constant `maxUint64`. -/
def maxUint64 : Nat := 2 ^ 64 - 1

/-- The loop of `strconv.ParseUint(s, 10, 64)` over the bytes of `s`, `n` being the
value accumulated so far (a `uint64`, so sums are taken modulo `2 ^ 64`). -/
def parseUintLoop : Nat → List Char → Except NumError Nat
  | n, [] => .ok n
  | n, c :: cs =>
    if 48 ≤ c.toNat ∧ c.toNat ≤ 57 then
      let d := c.toNat - 48
      if n ≥ maxUint64 / 10 + 1 then
        .error .ErrRange
      else
        let n10 := (n * 10) % 2 ^ 64
        let n1 := (n10 + d) % 2 ^ 64
        if n1 < n10 ∨ n1 > maxUint64 then
          .error .ErrRange
        else
          parseUintLoop n1 cs
    else
      .error .ErrSyntax

/-- The call `strconv.ParseUint(s, 10, 64)` on the characters of `s`. -/
def ParseUint (s : List Char) : Except NumError Nat :=
  match s with
  | [] => .error .ErrSyntax
  | _ => parseUintLoop 0 s

/-- The call `strconv.ParseInt(s, 10, 0)` on the characters of `s`: an optional sign,
then `ParseUint`, then the range check against `1 <<< (IntSize - 1)`. -/
def ParseInt (s : List Char) : Except NumError Int :=
  match s with
  | [] => .error .ErrSyntax
  | c :: rest =>
    let neg := c = '-'
    let body := if c = '+' ∨ c = '-' then rest else s
    match ParseUint body with
    | .error e => .error e
    | .ok un =>
      let cutoff := 2 ^ (IntSize - 1)
      if ¬ neg ∧ un ≥ cutoff then .error .ErrRange
      else if neg ∧ un > cutoff then .error .ErrRange
      else .ok (if neg then - (un : Int) else (un : Int))

/-- The call `strconv.Atoi(s)`, which is `ParseInt(s, 10, 0)` converted to `int`. -/
def Atoi (s : String) : Except NumError Int :=
  ParseInt s.data

/-! ## feishu.go -/

/-- The struct `Feishu`. -/
structure Feishu where
  WebhookUrl : String
  DefaultRobot : String
  ClusterName : String
  MuteSeconds : Int
  History : TimeMap
  ClusterID : String
  DrcloudPlatform : String
  deriving DecidableEq, Repr

/-- The struct `FeishuMessage`. -/
structure FeishuMessage where
  Title : String
  Text : String
  Address : String
  deriving DecidableEq, Repr

/-- The statement `if v = os.Getenv(key); v == "" { v = dflt }` of `NewFeishu`. -/
def getenvOr (env : Environ) (key dflt : String) : String :=
  let v := Getenv env key
  if v = "" then dflt else v

/-- The statements `muteSeconds, err := strconv.Atoi(v)` and
`if err != nil { muteSeconds = 600 }` of `NewFeishu`. -/
def atoiOr600 (v : String) : Int :=
  match Atoi v with
  | .ok muteSeconds => muteSeconds
  | .error _ => 600

/-- The function `NewFeishu`, reading the process environment `env`. -/
def NewFeishu (env : Environ) : Feishu :=
  let feishuWebhookUrl := getenvOr env "FEISHU_WEBHOOK_URL" "https://open.feishu.cn/open-apis/bot/v2/hook"
  let feishuRobot := getenvOr env "FEISHU_ROBOT" "8366b2d1-ffc8-4081-8f2a-2f26c1bd114b"
  let clusterName := getenvOr env "CLUSTER_NAME" "none"
  let clusterID := getenvOr env "CLUSTER_ID" "none"
  let drcloudPlatform := getenvOr env "DRCLOUD_PLATFORM" "https://dev-drcloud.srv.deeproute.cn"
  let muteSeconds := atoiOr600 (Getenv env "MUTE_SECONDS")
  { WebhookUrl := feishuWebhookUrl
    DefaultRobot := feishuRobot
    ClusterName := clusterName
    ClusterID := clusterID
    DrcloudPlatform := drcloudPlatform
    MuteSeconds := muteSeconds
    History := makeMap }

/-- The response of `CustomerBot.SendMessage`, of which only the status code is read. -/
structure CustomerResp where
  StatusCode : Int
  deriving DecidableEq, Repr

/-- The type `Data`, a `map[string]interface{}`; every value stored here is a string. -/
abbrev Data := List (String × String)

/-- The libraries `sendToRobot` calls, as functions of their arguments. -/
structure Externals where
  /-- The function `dedent.Dedent`. -/
  Dedent : String → String
  /-- The calls `template.New("msg").Parse(text)` and `Execute(&buf, variables)` on the
  parsed template: the text written to the buffer, or the error of `Execute`. The
  error of `Parse` is dropped by `sendToRobot`, whose template is a constant. -/
  Execute : String → Data → Except GoError String
  /-- The call `lark.NewCustomerBot(webhook, "").SendMessage(ctx, msgType, content)`:
  the error, or with a nil error the response. -/
  SendMessage : String → String → String → Except GoError CustomerResp

/-- The function `Render`, on the text of the template; `vars` is its parameter
`variables`. -/
def Render (ext : Externals) (tmpl : String) (vars : Data) : Except GoError String :=
  match ext.Execute tmpl vars with
  | .error _ => .error ⟨"failed to render template"⟩
  | .ok buf => .ok buf

/-- The card template of `sendToRobot`, the raw string assigned to `tmpl`. -/
def tmpl : String :=
  "\x7b
\t\"schema\": \"2.0\",
\t\"config\": \x7b
\t\t\"update_multi\": true,
\t\t\"style\": \x7b
\t\t\t\"text_size\": \x7b
\t\t\t\t\"normal_v2\": \x7b
\t\t\t\t\t\"default\": \"normal\",
\t\t\t\t\t\"pc\": \"normal\",
\t\t\t\t\t\"mobile\": \"heading\"
\t\t\t\t\x7d
\t\t\t\x7d,
\t\t\t\"color\": \x7b
\t\t\t\t\"color_avx80lmgh1m\": \x7b
\t\t\t\t\t\"light_mode\": \"rgba(248, 250, 255, 1)\",
\t\t\t\t\t\"dark_mode\": \"rgba(10, 19, 41, 1)\"
\t\t\t\t\x7d,
\t\t\t\t\"color_3u5dhsmb3ig\": \x7b
\t\t\t\t\t\"light_mode\": \"rgba(248, 250, 255, 1)\",
\t\t\t\t\t\"dark_mode\": \"rgba(10, 19, 41, 1)\"
\t\t\t\t\x7d
\t\t\t\x7d
\t\t\x7d
\t\x7d,
\t\"body\": \x7b
\t\t\"direction\": \"vertical\",
\t\t\"horizontal_spacing\": \"8px\",
\t\t\"vertical_spacing\": \"8px\",
\t\t\"horizontal_align\": \"left\",
\t\t\"vertical_align\": \"top\",
\t\t\"padding\": \"0px 12px 12px 12px\",
\t\t\"elements\": [
\t\t\t\x7b
\t\t\t\t\"tag\": \"interactive_container\",
\t\t\t\t\"width\": \"fill\",
\t\t\t\t\"height\": \"auto\",
\t\t\t\t\"corner_radius\": \"12px\",
\t\t\t\t\"elements\": [
\t\t\t\t\t\x7b
\t\t\t\t\t\t\"tag\": \"markdown\",
\t\t\t\t\t\t\"content\": \"\x7b\x7b .TITLE \x7d\x7d\",
\t\t\t\t\t\t\"text_align\": \"left\",
\t\t\t\t\t\t\"text_size\": \"normal_v2\",
\t\t\t\t\t\t\"margin\": \"0px 0px 0px 20px\"
\t\t\t\t\t\x7d,
\t\t\t\t\t\x7b
\t\t\t\t\t\t\"tag\": \"hr\"
\t\t\t\t\t\x7d,
\t\t\t\t\t\x7b
\t\t\t\t\t\t\"tag\": \"column_set\",
\t\t\t\t\t\t\"horizontal_spacing\": \"8px\",
\t\t\t\t\t\t\"horizontal_align\": \"left\",
\t\t\t\t\t\t\"columns\": [
\t\t\t\t\t\t\t\x7b
\t\t\t\t\t\t\t\t\"tag\": \"column\",
\t\t\t\t\t\t\t\t\"width\": \"weighted\",
\t\t\t\t\t\t\t\t\"elements\": [
\t\t\t\t\t\t\t\t\t\x7b
\t\t\t\t\t\t\t\t\t\t\"tag\": \"markdown\",
\t\t\t\t\t\t\t\t\t\t\"content\": \"\x7b\x7b .TEXT \x7d\x7d\",
\t\t\t\t\t\t\t\t\t\t\"text_align\": \"left\",
\t\t\t\t\t\t\t\t\t\t\"text_size\": \"normal_v2\",
\t\t\t\t\t\t\t\t\t\t\"margin\": \"0px 0px 0px 0px\"
\t\t\t\t\t\t\t\t\t\x7d
\t\t\t\t\t\t\t\t],
\t\t\t\t\t\t\t\t\"padding\": \"0px 0px 12px 0px\",
\t\t\t\t\t\t\t\t\"direction\": \"vertical\",
\t\t\t\t\t\t\t\t\"horizontal_spacing\": \"8px\",
\t\t\t\t\t\t\t\t\"vertical_spacing\": \"8px\",
\t\t\t\t\t\t\t\t\"horizontal_align\": \"left\",
\t\t\t\t\t\t\t\t\"vertical_align\": \"top\",
\t\t\t\t\t\t\t\t\"margin\": \"0px 0px 0px 20px\",
\t\t\t\t\t\t\t\t\"weight\": 3
\t\t\t\t\t\t\t\x7d
\t\t\t\t\t\t],
\t\t\t\t\t\t\"margin\": \"0px 0px 0px 0px\"
\t\t\t\t\t\x7d
\t\t\t\t],
\t\t\t\t\"has_border\": true,
\t\t\t\t\"border_color\": \"blue-100\",
\t\t\t\t\"background_style\": \"color_3u5dhsmb3ig\",
\t\t\t\t\"padding\": \"12px 0px 0px 0px\",
\t\t\t\t\"direction\": \"vertical\",
\t\t\t\t\"horizontal_spacing\": \"8px\",
\t\t\t\t\"vertical_spacing\": \"12px\",
\t\t\t\t\"horizontal_align\": \"left\",
\t\t\t\t\"vertical_align\": \"top\",
\t\t\t\t\"margin\": \"0px 0px 0px 0px\"
\t\t\t\x7d,
\t\t\t\x7b
\t\t\t\t\"tag\": \"column_set\",
\t\t\t\t\"horizontal_spacing\": \"8px\",
\t\t\t\t\"horizontal_align\": \"left\",
\t\t\t\t\"columns\": [
\t\t\t\t\t\x7b
\t\t\t\t\t\t\"tag\": \"column\",
\t\t\t\t\t\t\"width\": \"auto\",
\t\t\t\t\t\t\"elements\": [
\t\t\t\t\t\t\t\x7b
\t\t\t\t\t\t\t\t\"tag\": \"button\",
\t\t\t\t\t\t\t\t\"text\": \x7b
\t\t\t\t\t\t\t\t\t\"tag\": \"plain_text\",
\t\t\t\t\t\t\t\t\t\"content\": \"查看Pod监控\"
\t\t\t\t\t\t\t\t\x7d,
\t\t\t\t\t\t\t\t\"type\": \"primary_text\",
\t\t\t\t\t\t\t\t\"width\": \"default\",
\t\t\t\t\t\t\t\t\"size\": \"medium\",
\t\t\t\t\t\t\t\t\"icon\": \x7b
\t\t\t\t\t\t\t\t\t\"tag\": \"standard_icon\",
\t\t\t\t\t\t\t\t\t\"token\": \"no_outlined\"
\t\t\t\t\t\t\t\t\x7d,
\t\t\t\t\t\t\t\t\"behaviors\": [
\t\t\t\t\t\t\t\t\t\x7b
\t\t\t\t\t\t\t\t\t\t\"type\": \"open_url\",
\t\t\t\t\t\t\t\t\t\t\"default_url\": \"\x7b\x7b .ADDRESS \x7d\x7d\",
\t\t\t\t\t\t\t\t\t\t\"pc_url\": \"\",
\t\t\t\t\t\t\t\t\t\t\"ios_url\": \"\",
\t\t\t\t\t\t\t\t\t\t\"android_url\": \"\"
\t\t\t\t\t\t\t\t\t\x7d
\t\t\t\t\t\t\t\t]
\t\t\t\t\t\t\t\x7d
\t\t\t\t\t\t],
\t\t\t\t\t\t\"vertical_spacing\": \"8px\",
\t\t\t\t\t\t\"horizontal_align\": \"left\",
\t\t\t\t\t\t\"vertical_align\": \"top\"
\t\t\t\t\t\x7d
\t\t\t\t]
\t\t\t\x7d
\t\t]
\t\x7d,
\t\"header\": \x7b
\t\t\"title\": \x7b
\t\t\t\"tag\": \"plain_text\",
\t\t\t\"content\": \"Pod Crash Notify\"
\t\t\x7d,
\t\t\"subtitle\": \x7b
\t\t\t\"tag\": \"plain_text\",
\t\t\t\"content\": \"\"
\t\t\x7d,
\t\t\"template\": \"default\",
\t\t\"icon\": \x7b
\t\t\t\"tag\": \"custom_icon\",
\t\t\t\"img_key\": \"img_v3_02ns_01458e14-8e2e-47bb-9f81-19a6d3b0a3ag\"
\t\t\x7d,
\t\t\"padding\": \"12px 12px 12px 12px\"
\t\x7d
\x7d"

/-- One call of `SendMessage`: the webhook address, the message type and the content. -/
structure Request where
  url : String
  msgType : String
  content : String
  deriving DecidableEq, Repr

/-- What a call of `sendToRobot` leaves behind: the returned `error`, the contents of
the map `f.History` refers to, the webhook calls made and the lines logged. -/
structure SendResult where
  err : Option GoError
  History : TimeMap
  sent : List Request
  log : List String
  deriving DecidableEq, Repr

/-- The method `Feishu.sendToRobot`. -/
def sendToRobot (ext : Externals) (f : Feishu) (msg : FeishuMessage)
    (feishuRobot serviceCreator : String) : SendResult :=
  let robot := if feishuRobot ≠ "" then feishuRobot else f.DefaultRobot
  match Render ext (ext.Dedent tmpl)
      [("TITLE", msg.Title), ("TEXT", msg.Text), ("ADDRESS", msg.Address)] with
  | .error err =>
    { err := some err, History := f.History, sent := [], log := [] }
  | .ok card =>
    let url := f.WebhookUrl ++ "/" ++ robot
    let request : Request := { url := url, msgType := "interactive", content := card }
    match ext.SendMessage url "interactive" card with
    | .error err =>
      { err := some err, History := f.History, sent := [request], log := [] }
    | .ok resp =>
      let err : Option GoError := none
      if resp.StatusCode ≠ 200 then
        { err := err, History := f.History, sent := [request], log := [] }
      else
        { err := none, History := f.History, sent := [request],
          log := ["Sent: [" ++ msg.Title.replace "\n" " " ++ "] to Feishu.\n\n"] }

/-! ## The mute check -/

/-- Modelled from the spec: the mute check `shouldSuppress(key, now)` of the Mute Cache
(section 4.3), over the fields `History` and `MuteSeconds` of `Feishu`; the controller
that performs it is not embedded here. It holds iff an entry exists for `key` and
`now - entry.lastSentAt < muteWindow`, the window being `MuteSeconds` seconds. -/
def shouldSuppress (f : Feishu) (key : String) (now : Time) : Bool :=
  match mapLookup f.History key with
  | some lastSentAt => decide (now - lastSentAt < f.MuteSeconds * Second)
  | none => false

/-- Modelled from the spec: the operation `recordSent(key, now)` of the Mute Cache
(section 4.3), which creates or overwrites the entry for `key` with
`lastSentAt = now`; the controller that performs it is not embedded here. -/
def recordSent (f : Feishu) (key : String) (now : Time) : Feishu :=
  { f with History :=
      match f.History with
      | none => none
      | some es => some ((key, now) :: es.filter (fun e => e.1 != key)) }

/-! ## The flag package -/

/-- A `flag.FlagSet` whose flags are all string flags: the defined flags with their
current values, and the arguments not yet consumed. -/
structure FlagSet where
  formal : List (String × String)
  args : List String
  deriving DecidableEq, Repr

/-- The errors of `FlagSet.Parse`: `flag.ErrHelp`, or a failure with its message. -/
inductive FlagError where
  | ErrHelp
  | failf (msg : String)
  deriving DecidableEq, Repr

/-- The loop of `parseOne` that looks for the first `=` after the first character of
`name`: the name before it and the value after it. -/
def splitEquals : List Char → List Char → Option (List Char × List Char)
  | _, [] => none
  | pre, c :: cs => if c = '=' then some (pre.reverse, cs) else splitEquals (c :: pre) cs

/-- The assignment `flag.Value.Set(value)` of a string flag. -/
def setFlag (formal : List (String × String)) (name value : String) : List (String × String) :=
  formal.map (fun e => if e.1 = name then (e.1, value) else e)

/-- The second half of `FlagSet.parseOne`, from the lookup `f.formal[name]` on: the
flag `name` has been split from its value and the argument holding it is consumed. -/
def parseOneFlag (f : FlagSet) (name : String) (hasValue : Bool) (value : String) :
    Bool × Option FlagError × FlagSet :=
  if ¬ (f.formal.any (fun e => e.1 == name)) then
    if name = "help" ∨ name = "h" then (false, some .ErrHelp, f)
    else (false, some (.failf ("flag provided but not defined: -" ++ name)), f)
  else if hasValue then
    (true, none, { f with formal := setFlag f.formal name value })
  else
    match f.args with
    | value :: rest => (true, none, { formal := setFlag f.formal name value, args := rest })
    | [] => (false, some (.failf ("flag needs an argument: -" ++ name)), f)

/-- The method `FlagSet.parseOne`: whether a flag was seen, the error, and the flag set
after the step. -/
def parseOne (f : FlagSet) : Bool × Option FlagError × FlagSet :=
  match f.args with
  | [] => (false, none, f)
  | s :: rest =>
    match s.data with
    | [] => (false, none, f)
    | [_] => (false, none, f)
    | c0 :: c1 :: more =>
      if c0 ≠ '-' then (false, none, f)
      else if c1 = '-' ∧ more = [] then (false, none, { f with args := rest })
      else
        let name := if c1 = '-' then more else c1 :: more
        match name with
        | [] => (false, some (.failf ("bad flag syntax: " ++ s)), f)
        | n0 :: ns =>
          if n0 = '-' ∨ n0 = '=' then (false, some (.failf ("bad flag syntax: " ++ s)), f)
          else
            match splitEquals [n0] ns with
            | some (pre, post) =>
              parseOneFlag { f with args := rest } (String.mk pre) true (String.mk post)
            | none =>
              parseOneFlag { f with args := rest } (String.mk name) false ""

/-- The loop of `FlagSet.Parse`, run for at most `fuel` steps: `none` when the steps
run out, else the error that stops the parse or the flag set after a parse that ends. -/
def parseLoop : Nat → FlagSet → Option (Except FlagError FlagSet)
  | 0, _ => none
  | fuel + 1, f =>
    match parseOne f with
    | (true, _, f) => parseLoop fuel f
    | (false, none, f) => some (.ok f)
    | (false, some err, _) => some (.error err)

/-- The method `FlagSet.Parse(arguments)`; every step that sees a flag consumes an
argument, so one step more than there are arguments is enough. -/
def Parse (f : FlagSet) (arguments : List String) : Option (Except FlagError FlagSet) :=
  parseLoop (arguments.length + 1) { f with args := arguments }

/-- The value of a defined string flag. -/
def flagValue (f : FlagSet) (name : String) : String :=
  match f.formal.find? (fun e => e.1 == name) with
  | some e => e.2
  | none => ""

/-! ## main.go -/

/-- What `slack.go`, which is not embedded here, supplies to `main`: the type `Slack`,
its zero value and the function `NewSlack`. -/
structure SlackPkg where
  Slack : Type
  zero : Slack
  NewSlack : Environ → Slack

/-- The struct `NotifyOption`. -/
structure NotifyOption (P : SlackPkg) where
  feishu : Feishu
  slack : P.Slack
  notify : String

/-- The zero value of `Feishu`: empty strings, zero, and the nil map. -/
def Feishu.zero : Feishu :=
  { WebhookUrl := "", DefaultRobot := "", ClusterName := "", MuteSeconds := 0,
    History := none, ClusterID := "", DrcloudPlatform := "" }

/-- The statements `no := &NotifyOption{}` and `switch notifyChannel { ... }` of `main`. -/
def notifySwitch (P : SlackPkg) (env : Environ) (notifyChannel : String) : NotifyOption P :=
  let no : NotifyOption P := { feishu := Feishu.zero, slack := P.zero, notify := "" }
  if notifyChannel = "feishu" then
    { no with feishu := NewFeishu env, notify := "feishu" }
  else if notifyChannel = "slack" then
    { no with slack := P.NewSlack env, notify := "slack" }
  else
    { no with feishu := NewFeishu env, notify := "feishu" }

/-- The calls of `main` into `homedir`, `filepath` and `client-go`. -/
structure ClientGo where
  Config : Type
  Clientset : Type
  /-- The call `homedir.HomeDir()`. -/
  HomeDir : String
  /-- The call `filepath.Join(home, ".kube", "config")`. -/
  Join : String → String → String → String
  /-- The call `clientcmd.BuildConfigFromFlags("", kubeconfig)`. -/
  BuildConfigFromFlags : String → String → Except GoError Config
  /-- The call `rest.InClusterConfig()`. -/
  InClusterConfig : Except GoError Config
  /-- The call `kubernetes.NewForConfig(config)`. -/
  NewForConfig : Config → Except GoError Clientset

/-- How far `main` gets: the process exits inside `flag.Parse`, or `klog.Fatal` ends
it, or `NewController(clientset, *no)` is called (after which `main` starts the
controller and waits forever). -/
inductive Outcome (P : SlackPkg) (K : ClientGo) where
  | exit (code : Nat)
  | fatal (err : GoError)
  | controller (clientset : K.Clientset) (no : NotifyOption P)

/-- The function `main`, on the process environment and the command line
(`os.Args[1:]`). The flag set is `flag.CommandLine`, on which `kubeconfig` is the one
flag defined before `flag.Parse()`; `none` only if the parse loop runs out of steps. -/
def main (P : SlackPkg) (K : ClientGo) (env : Environ) (args : List String) :
    Option (Outcome P K) :=
  let home := K.HomeDir
  let CommandLine : FlagSet :=
    if home ≠ "" then { formal := [("kubeconfig", K.Join home ".kube" "config")], args := [] }
    else { formal := [("kubeconfig", "")], args := [] }
  match Parse CommandLine args with
  | none => none
  | some (.error .ErrHelp) => some (.exit 0)
  | some (.error (.failf _)) => some (.exit 2)
  | some (.ok CommandLine) =>
    let kubeconfig := flagValue CommandLine "kubeconfig"
    let config : Except GoError K.Config :=
      match K.BuildConfigFromFlags "" kubeconfig with
      | .ok config => .ok config
      | .error _ => K.InClusterConfig
    match config with
    | .error err => some (.fatal err)
    | .ok config =>
      match K.NewForConfig config with
      | .error err => some (.fatal err)
      | .ok clientset =>
        let notifyChannel := "feishu"
        let no := notifySwitch P env notifyChannel
        some (.controller clientset no)

/-! ## Decimal texts -/

/-- The number written by a string of decimal digits, most significant first,
continuing from `acc`. -/
def digitsValue (acc : Nat) (ds : List Char) : Nat :=
  ds.foldl (fun a c => a * 10 + (c.toNat - 48)) acc

/-- Whether a character is one of the ten ASCII digits. -/
def isDecimalDigit (c : Char) : Bool :=
  decide (48 ≤ c.toNat ∧ c.toNat ≤ 57)

/-- The natural number denoted by a non-empty string of decimal digits. -/
def unsignedText? (ds : List Char) : Option Nat :=
  if ds ≠ [] ∧ ds.all isDecimalDigit = true then some (digitsValue 0 ds) else none

/-- The integer a string is the decimal text of, if any: an optional sign followed
by one or more decimal digits. There is no bound on the size. -/
def decimalText? (s : String) : Option Int :=
  match s.data with
  | [] => none
  | c :: ds =>
    if c = '-' then (unsignedText? ds).map (fun (v : Nat) => - (v : Int))
    else if c = '+' then (unsignedText? ds).map (fun (v : Nat) => (v : Int))
    else (unsignedText? (c :: ds)).map (fun (v : Nat) => (v : Int))

/-! ## Concrete inputs -/

/-- The environment in which no variable is set. -/
def envUnset : Environ :=
  fun _ => none

/-- An environment in which only `MUTE_SECONDS` is set, to `-5`. -/
def envMuteNegative : Environ :=
  fun key => if key = "MUTE_SECONDS" then some "-5" else none

/-- An environment in which only `MUTE_SECONDS` is set, to the decimal text of `2^63`. -/
def envMuteTooLarge : Environ :=
  fun key => if key = "MUTE_SECONDS" then some "9223372036854775808" else none

/-- A `Feishu` value with a mute window of 600 seconds and an empty `History`. -/
def feishu600 : Feishu :=
  { Feishu.zero with MuteSeconds := 600, History := makeMap }

/-- Libraries whose template execution writes the three values one after another and
whose webhook call comes back without error and with status 500. -/
def extStatus500 : Externals where
  Dedent := fun text => text
  Execute := fun _ vars => .ok (String.join (vars.map (fun kv => kv.2)))
  SendMessage := fun _ _ _ => .ok { StatusCode := 500 }

/-- Libraries whose template execution writes the three values one after another and
whose webhook call succeeds only for a message of type `interactive` sent to the
robot `robot-7` under the default webhook address, and fails for any other call. -/
def extOnlyRobot7 : Externals where
  Dedent := fun text => text
  Execute := fun _ vars => .ok (String.join (vars.map (fun kv => kv.2)))
  SendMessage := fun url msgType _ =>
    if url = "https://open.feishu.cn/open-apis/bot/v2/hook/robot-7" ∧ msgType = "interactive"
    then .ok { StatusCode := 200 }
    else .error { msg := "unknown robot" }

/-- A message to send. -/
def msgCrash : FeishuMessage :=
  { Title := "Pod Crash", Text := "ns/a restarted", Address := "https://example.org/ns/a" }

/-- A `slack.go` whose `Slack` is a string. -/
def slackPkgStr : SlackPkg where
  Slack := String
  zero := ""
  NewSlack := fun env => Getenv env "SLACK_WEBHOOK_URL"


/-! ## strconv.Atoi against decimal texts -/

theorem digitsValue_ge (ds : List Char) (a : Nat) : a ≤ digitsValue a ds := by
  induction ds generalizing a with
  | nil => simp [digitsValue]
  | cons c cs ih =>
    have h := ih (a * 10 + (c.toNat - 48))
    simp only [digitsValue, List.foldl_cons] at h ⊢
    omega

theorem digitsValue_cons (c : Char) (cs : List Char) (a : Nat) :
    digitsValue a (c :: cs) = digitsValue (a * 10 + (c.toNat - 48)) cs := rfl

theorem parseUintLoop_digits (ds : List Char) (n : Nat) (hn : n < 2 ^ 64)
    (hd : ds.all isDecimalDigit = true) :
    parseUintLoop n ds =
      if digitsValue n ds < 2 ^ 64 then .ok (digitsValue n ds) else .error .ErrRange := by
  induction ds generalizing n with
  | nil =>
    have e : digitsValue n [] = n := rfl
    rw [e, if_pos hn]; rfl
  | cons c cs ih =>
    simp only [List.all_cons, Bool.and_eq_true] at hd
    obtain ⟨hc, hcs⟩ := hd
    simp only [isDecimalDigit, decide_eq_true_eq] at hc
    rw [digitsValue_cons]
    have hge := digitsValue_ge cs (n * 10 + (c.toNat - 48))
    simp only [parseUintLoop, hc, and_self, if_true, maxUint64]
    by_cases h1 : n ≥ (2 ^ 64 - 1) / 10 + 1
    · rw [if_pos h1, if_neg (by omega)]
    · rw [if_neg h1]
      by_cases h2 : n * 10 + (c.toNat - 48) < 2 ^ 64
      · have e1 : (n * 10) % 2 ^ 64 = n * 10 := Nat.mod_eq_of_lt (by omega)
        have e2 : (n * 10 + (c.toNat - 48)) % 2 ^ 64 = n * 10 + (c.toNat - 48) :=
          Nat.mod_eq_of_lt h2
        simp only [e1, e2]
        rw [if_neg (by omega)]
        exact ih _ h2 hcs
      · have e1 : (n * 10) % 2 ^ 64 = n * 10 := Nat.mod_eq_of_lt (by omega)
        have e2 : (n * 10 + (c.toNat - 48)) % 2 ^ 64 = n * 10 + (c.toNat - 48) - 2 ^ 64 := by
          rw [Nat.mod_eq_sub_mod (by omega)]
          exact Nat.mod_eq_of_lt (by omega)
        simp only [e1, e2]
        rw [if_pos (by omega), if_neg (by omega)]

theorem parseUintLoop_nondigit (ds : List Char) (n : Nat)
    (hd : ds.all isDecimalDigit = false) :
    ∃ e, parseUintLoop n ds = .error e := by
  induction ds generalizing n with
  | nil => simp at hd
  | cons c cs ih =>
    by_cases hc : 48 ≤ c.toNat ∧ c.toNat ≤ 57
    · have hcs : cs.all isDecimalDigit = false := by
        have hc2 : isDecimalDigit c = true := by simp [isDecimalDigit, hc]
        rw [List.all_cons, hc2, Bool.true_and] at hd
        exact hd
      simp only [parseUintLoop, hc, and_self, if_true]
      split
      · exact ⟨_, rfl⟩
      · split
        · exact ⟨_, rfl⟩
        · exact ih _ hcs
    · exact ⟨.ErrSyntax, by simp only [parseUintLoop, hc, if_false]⟩


theorem ParseUint_eq (ds : List Char) :
    ∃ e, ParseUint ds =
      match unsignedText? ds with
      | some v => if v < 2 ^ 64 then .ok v else .error .ErrRange
      | none => .error e := by
  cases ds with
  | nil => exact ⟨.ErrSyntax, by simp [ParseUint, unsignedText?]⟩
  | cons c cs =>
    cases hd : (c :: cs).all isDecimalDigit with
    | true =>
      refine ⟨.ErrSyntax, ?_⟩
      have h := parseUintLoop_digits (c :: cs) 0 (by norm_num) hd
      simp only [ParseUint, unsignedText?, hd, ne_eq, reduceCtorEq, not_false_eq_true, and_self,
        if_true]
      exact h
    | false =>
      obtain ⟨e, he⟩ := parseUintLoop_nondigit (c :: cs) 0 hd
      refine ⟨e, ?_⟩
      simp only [ParseUint, unsignedText?, hd, ne_eq, reduceCtorEq, not_false_eq_true,
        Bool.false_eq_true, and_false, if_false]
      exact he

theorem atoiOr600_eq (s : String) :
    atoiOr600 s =
      match decimalText? s with
      | some v => if - 2 ^ 63 ≤ v ∧ v < 2 ^ 63 then v else 600
      | none => 600 := by
  unfold atoiOr600 Atoi decimalText? ParseInt
  cases hs : s.data with
  | nil => rfl
  | cons c ds =>
    simp only [IntSize]
    by_cases hm : c = '-'
    · subst hm
      obtain ⟨e, he⟩ := ParseUint_eq ds
      rw [if_pos (Or.inr rfl), he, if_pos rfl]
      cases hu : unsignedText? ds with
      | none => rfl
      | some v =>
        simp only [Option.map_some']
        by_cases hv : v < 2 ^ 64
        · simp only [hv, if_true, not_true_eq_false, false_and, if_false, true_and]
          by_cases hv2 : v > 2 ^ (64 - 1)
          · simp only [hv2, if_true]
            rw [if_neg (by omega)]
          · simp only [hv2, if_false]
            rw [if_pos (by omega)]
        · simp only [hv, if_false]
          rw [if_neg (by omega)]
    · by_cases hp : c = '+'
      · subst hp
        obtain ⟨e, he⟩ := ParseUint_eq ds
        rw [if_pos (Or.inl rfl), he, if_neg hm, if_pos rfl]
        cases hu : unsignedText? ds with
        | none => rfl
        | some v =>
          simp only [Option.map_some']
          by_cases hv : v < 2 ^ 64
          · simp only [hv, if_true, hm, not_false_eq_true, true_and, false_and, if_false]
            by_cases hv2 : v ≥ 2 ^ (64 - 1)
            · simp only [hv2, if_true]
              rw [if_neg (by omega)]
            · simp only [hv2, if_false]
              rw [if_pos (by omega)]
          · simp only [hv, if_false]
            rw [if_neg (by omega)]
      · obtain ⟨e, he⟩ := ParseUint_eq (c :: ds)
        rw [if_neg (by simp [hm, hp]), he, if_neg hm, if_neg hp]
        cases hu : unsignedText? (c :: ds) with
        | none => rfl
        | some v =>
          simp only [Option.map_some']
          by_cases hv : v < 2 ^ 64
          · simp only [hv, if_true, hm, not_false_eq_true, true_and, false_and, if_false]
            by_cases hv2 : v ≥ 2 ^ (64 - 1)
            · simp only [hv2, if_true]
              rw [if_neg (by omega)]
            · simp only [hv2, if_false]
              rw [if_pos (by omega)]
          · simp only [hv, if_false]
            rw [if_neg (by omega)]

/-! ## The decimal rendering of an integer -/

theorem digitChar_toNat (d : Nat) (h : d < 10) : (Nat.digitChar d).toNat = d + 48 := by
  interval_cases d <;> rfl

theorem toDigitsCore_append (fuel n : Nat) (ds : List Char) :
    Nat.toDigitsCore 10 fuel n ds = Nat.toDigitsCore 10 fuel n [] ++ ds := by
  induction fuel generalizing n ds with
  | zero => rfl
  | succ k ih =>
    simp only [Nat.toDigitsCore]
    split
    · rfl
    · rw [ih (n / 10) (Nat.digitChar (n % 10) :: ds), ih (n / 10) [Nat.digitChar (n % 10)]]
      simp

theorem digitsValue_append (a : Nat) (l : List Char) (c : Char) :
    digitsValue a (l ++ [c]) = digitsValue a l * 10 + (c.toNat - 48) := by
  simp [digitsValue, List.foldl_append]

theorem toDigitsCore_value (fuel n : Nat) (h : n < fuel) :
    Nat.toDigitsCore 10 fuel n [] ≠ [] ∧
    (Nat.toDigitsCore 10 fuel n []).all isDecimalDigit = true ∧
    digitsValue 0 (Nat.toDigitsCore 10 fuel n []) = n := by
  induction fuel generalizing n with
  | zero => exact absurd h (Nat.not_lt_zero _)
  | succ k ih =>
    have hd : (Nat.digitChar (n % 10)).toNat = n % 10 + 48 :=
      digitChar_toNat _ (Nat.mod_lt _ (by norm_num))
    have hdig : isDecimalDigit (Nat.digitChar (n % 10)) = true := by
      simp only [isDecimalDigit, hd, decide_eq_true_eq]
      have := Nat.mod_lt n (show 10 > 0 by norm_num)
      omega
    simp only [Nat.toDigitsCore]
    split
    · rename_i h0
      refine ⟨by simp, by simp [hdig], ?_⟩
      simp only [digitsValue, List.foldl_cons, List.foldl_nil, hd]
      omega
    · rename_i h0
      rw [toDigitsCore_append]
      obtain ⟨h1, h2, h3⟩ := ih (n / 10) (by omega)
      refine ⟨by simp, by simp [h2, hdig], ?_⟩
      rw [digitsValue_append, h3, hd]
      omega

theorem unsignedText?_repr (n : Nat) : unsignedText? (Nat.repr n).data = some n := by
  obtain ⟨h1, h2, h3⟩ := toDigitsCore_value (n + 1) n (Nat.lt_succ_self n)
  have e : (Nat.repr n).data = Nat.toDigitsCore 10 (n + 1) n [] := rfl
  rw [e]
  simp only [unsignedText?, h2, h3, and_true, ne_eq, h1, not_false_eq_true, if_true]

theorem repr_head_digit (n : Nat) :
    ∃ c ds, (Nat.repr n).data = c :: ds ∧ isDecimalDigit c = true := by
  obtain ⟨h1, h2, _⟩ := toDigitsCore_value (n + 1) n (Nat.lt_succ_self n)
  have e : (Nat.repr n).data = Nat.toDigitsCore 10 (n + 1) n [] := rfl
  rw [e]
  cases hl : Nat.toDigitsCore 10 (n + 1) n [] with
  | nil => exact absurd hl h1
  | cons c ds =>
    rw [hl] at h2
    simp only [List.all_cons, Bool.and_eq_true] at h2
    exact ⟨c, ds, rfl, h2.1⟩

/-- The decimal rendering of an integer is a decimal text of that integer. -/
theorem decimalText?_toString (n : Int) : decimalText? (toString n) = some n := by
  cases n with
  | ofNat m =>
    have e : (toString (Int.ofNat m)) = Nat.repr m := rfl
    rw [e]
    obtain ⟨c, ds, hcd, hc⟩ := repr_head_digit m
    have hu := unsignedText?_repr m
    unfold decimalText?
    rw [hcd] at hu ⊢
    have h1 : c ≠ '-' := by
      intro h; subst h; exact absurd hc (by decide)
    have h2 : c ≠ '+' := by
      intro h; subst h; exact absurd hc (by decide)
    simp only [h1, h2, if_false, hu, Option.map_some']
    rfl
  | negSucc m =>
    have e : (toString (Int.negSucc m)).data = '-' :: (Nat.repr (m + 1)).data := rfl
    unfold decimalText?
    rw [e]
    simp only [if_true, unsignedText?_repr, Option.map_some']
    rfl

/-! ## NewFeishu -/

theorem getenvOr_ne_empty (env : Environ) (key dflt : String) (h : dflt ≠ "") :
    getenvOr env key dflt ≠ "" := by
  unfold getenvOr
  by_cases hv : Getenv env key = ""
  · simpa [hv] using h
  · simp [hv]

/-- C7: every string field of the value `NewFeishu` returns is the value of its
environment variable when that value is non-empty, and its fixed default otherwise;
none of the five is ever empty. -/
theorem NewFeishu_string_fields (env : Environ) :
    ((NewFeishu env).WebhookUrl =
        if Getenv env "FEISHU_WEBHOOK_URL" = "" then "https://open.feishu.cn/open-apis/bot/v2/hook"
        else Getenv env "FEISHU_WEBHOOK_URL") ∧
    ((NewFeishu env).DefaultRobot =
        if Getenv env "FEISHU_ROBOT" = "" then "8366b2d1-ffc8-4081-8f2a-2f26c1bd114b"
        else Getenv env "FEISHU_ROBOT") ∧
    ((NewFeishu env).ClusterName =
        if Getenv env "CLUSTER_NAME" = "" then "none" else Getenv env "CLUSTER_NAME") ∧
    ((NewFeishu env).ClusterID =
        if Getenv env "CLUSTER_ID" = "" then "none" else Getenv env "CLUSTER_ID") ∧
    ((NewFeishu env).DrcloudPlatform =
        if Getenv env "DRCLOUD_PLATFORM" = "" then "https://dev-drcloud.srv.deeproute.cn"
        else Getenv env "DRCLOUD_PLATFORM") ∧
    (NewFeishu env).WebhookUrl ≠ "" ∧ (NewFeishu env).DefaultRobot ≠ "" ∧
    (NewFeishu env).ClusterName ≠ "" ∧ (NewFeishu env).ClusterID ≠ "" ∧
    (NewFeishu env).DrcloudPlatform ≠ "" := by
  refine ⟨rfl, rfl, rfl, rfl, rfl, ?_, ?_, ?_, ?_, ?_⟩ <;>
    exact getenvOr_ne_empty env _ _ (by decide)

/-- C6: the value `NewFeishu` returns holds an allocated `History` map with no
entries, so a lookup finds nothing for any key and the mute check suppresses no key
at any time. -/
theorem NewFeishu_History_empty (env : Environ) :
    (NewFeishu env).History = some [] ∧
    (∀ key, mapLookup (NewFeishu env).History key = none) ∧
    (∀ key now, shouldSuppress (NewFeishu env) key now = false) := by
  refine ⟨rfl, fun key => rfl, fun key now => rfl⟩

/-- C4, as amended: `MuteSeconds` is the integer `n` when `MUTE_SECONDS` is the
decimal text of an `n` with `-2^63 ≤ n < 2^63`, and is 600 in every other case: the
variable unset or empty, a text that is no integer, or an integer outside that range.
In particular the decimal rendering of every `n` in the range is read back as `n`. -/
theorem NewFeishu_MuteSeconds (env : Environ) :
    ((NewFeishu env).MuteSeconds =
      match decimalText? (Getenv env "MUTE_SECONDS") with
      | some n => if - 2 ^ 63 ≤ n ∧ n < 2 ^ 63 then n else 600
      | none => 600) ∧
    (∀ n : Int, - 2 ^ 63 ≤ n → n < 2 ^ 63 → env "MUTE_SECONDS" = some (toString n) →
      (NewFeishu env).MuteSeconds = n) ∧
    (env "MUTE_SECONDS" = none ∨ env "MUTE_SECONDS" = some "" →
      (NewFeishu env).MuteSeconds = 600) := by
  have key := atoiOr600_eq (Getenv env "MUTE_SECONDS")
  refine ⟨key, ?_, ?_⟩
  · intro n h1 h2 henv
    have hg : Getenv env "MUTE_SECONDS" = toString n := by
      simp only [Getenv, henv]
    have hm : (NewFeishu env).MuteSeconds = atoiOr600 (Getenv env "MUTE_SECONDS") := rfl
    rw [hm, key, hg, decimalText?_toString]
    exact if_pos ⟨h1, h2⟩
  · intro henv
    have hg : Getenv env "MUTE_SECONDS" = "" := by
      rcases henv with h | h <;> simp only [Getenv, h]
    have hm : (NewFeishu env).MuteSeconds = atoiOr600 (Getenv env "MUTE_SECONDS") := rfl
    rw [hm, hg]
    rfl

/-- With `MUTE_SECONDS=-5` the mute window is `-5`, and with nothing set it is 600. -/
theorem NewFeishu_MuteSeconds_at_minus_five :
    (NewFeishu envMuteNegative).MuteSeconds = -5 ∧ (NewFeishu envUnset).MuteSeconds = 600 :=
  ⟨(NewFeishu_MuteSeconds envMuteNegative).2.1 (-5) (by decide) (by decide) (by decide),
   (NewFeishu_MuteSeconds envUnset).2.2 (Or.inl rfl)⟩

/-- C4, as stated, fails: `9223372036854775808` is the decimal text of the integer
`2^63`, and with it in `MUTE_SECONDS` the returned `MuteSeconds` is 600. -/
theorem NewFeishu_MuteSeconds_beyond_int :
    envMuteTooLarge "MUTE_SECONDS" = some (toString (9223372036854775808 : Int)) ∧
    decimalText? (Getenv envMuteTooLarge "MUTE_SECONDS") = some 9223372036854775808 ∧
    (NewFeishu envMuteTooLarge).MuteSeconds = 600 ∧
    (NewFeishu envMuteTooLarge).MuteSeconds ≠ 9223372036854775808 := by
  refine ⟨by decide, by decide, by decide, by decide⟩

/-! ## The mute check -/

/-- C3: the mute check suppresses a key at `now` iff `History` holds an entry for the
key whose sent-time is less than `MuteSeconds` seconds before `now`; with no entry, or
with an entry at least `MuteSeconds` seconds old, it does not suppress. -/
theorem shouldSuppress_iff (f : Feishu) (key : String) (now : Time) :
    (shouldSuppress f key now = true ↔
      ∃ sent, mapLookup f.History key = some sent ∧ now - sent < f.MuteSeconds * Second) ∧
    (mapLookup f.History key = none → shouldSuppress f key now = false) ∧
    (∀ sent, mapLookup f.History key = some sent → now - sent ≥ f.MuteSeconds * Second →
      shouldSuppress f key now = false) := by
  unfold shouldSuppress
  refine ⟨?_, ?_, ?_⟩
  · cases h : mapLookup f.History key with
    | none => simp
    | some sent => simp
  · intro h
    rw [h]
  · intro sent h hge
    rw [h]
    simp only [decide_eq_false_iff_not, not_lt]
    exact hge

/-- The scenario of the spec: a send recorded at `t = 0` with a window of 600 seconds
suppresses at 300 seconds and no longer at 600 or 650 seconds. -/
theorem shouldSuppress_scenario :
    shouldSuppress (recordSent feishu600 "ns/a" 0) "ns/a" (300 * Second) = true ∧
    shouldSuppress (recordSent feishu600 "ns/a" 0) "ns/a" (600 * Second) = false ∧
    shouldSuppress (recordSent feishu600 "ns/a" 0) "ns/a" (650 * Second) = false ∧
    shouldSuppress (recordSent feishu600 "ns/a" 0) "ns/b" (300 * Second) = false :=
  ⟨((shouldSuppress_iff (recordSent feishu600 "ns/a" 0) "ns/a" (300 * Second)).1).2
      ⟨0, by decide, by decide⟩,
   (shouldSuppress_iff (recordSent feishu600 "ns/a" 0) "ns/a" (600 * Second)).2.2 0
      (by decide) (by decide),
   (shouldSuppress_iff (recordSent feishu600 "ns/a" 0) "ns/a" (650 * Second)).2.2 0
      (by decide) (by decide),
   (shouldSuppress_iff (recordSent feishu600 "ns/a" 0) "ns/b" (300 * Second)).2.1
      (by decide)⟩

/-! ## sendToRobot -/

/-- The three ways a call of `sendToRobot` goes, by the outcome of rendering and of
the webhook call. -/
theorem sendToRobot_cases (ext : Externals) (f : Feishu) (msg : FeishuMessage)
    (feishuRobot serviceCreator : String) :
    (∃ err,
      Render ext (ext.Dedent tmpl)
        [("TITLE", msg.Title), ("TEXT", msg.Text), ("ADDRESS", msg.Address)] = .error err ∧
      sendToRobot ext f msg feishuRobot serviceCreator =
        { err := some err, History := f.History, sent := [], log := [] }) ∨
    (∃ card err,
      Render ext (ext.Dedent tmpl)
        [("TITLE", msg.Title), ("TEXT", msg.Text), ("ADDRESS", msg.Address)] = .ok card ∧
      ext.SendMessage
        (f.WebhookUrl ++ "/" ++ (if feishuRobot = "" then f.DefaultRobot else feishuRobot))
        "interactive" card = .error err ∧
      sendToRobot ext f msg feishuRobot serviceCreator =
        { err := some err, History := f.History,
          sent := [{ url := f.WebhookUrl ++ "/" ++
                      (if feishuRobot = "" then f.DefaultRobot else feishuRobot),
                     msgType := "interactive", content := card }],
          log := [] }) ∨
    (∃ card resp,
      Render ext (ext.Dedent tmpl)
        [("TITLE", msg.Title), ("TEXT", msg.Text), ("ADDRESS", msg.Address)] = .ok card ∧
      ext.SendMessage
        (f.WebhookUrl ++ "/" ++ (if feishuRobot = "" then f.DefaultRobot else feishuRobot))
        "interactive" card = .ok resp ∧
      sendToRobot ext f msg feishuRobot serviceCreator =
        { err := none, History := f.History,
          sent := [{ url := f.WebhookUrl ++ "/" ++
                      (if feishuRobot = "" then f.DefaultRobot else feishuRobot),
                     msgType := "interactive", content := card }],
          log := if resp.StatusCode = 200 then
              ["Sent: [" ++ msg.Title.replace "\n" " " ++ "] to Feishu.\n\n"] else [] }) := by
  have hrobot : (if feishuRobot ≠ "" then feishuRobot else f.DefaultRobot) =
      (if feishuRobot = "" then f.DefaultRobot else feishuRobot) := by
    by_cases h : feishuRobot = "" <;> simp [h]
  unfold sendToRobot
  simp only [hrobot]
  cases hR : Render ext (ext.Dedent tmpl)
      [("TITLE", msg.Title), ("TEXT", msg.Text), ("ADDRESS", msg.Address)] with
  | error err => exact Or.inl ⟨err, rfl, rfl⟩
  | ok card =>
    cases hS : ext.SendMessage
        (f.WebhookUrl ++ "/" ++ (if feishuRobot = "" then f.DefaultRobot else feishuRobot))
        "interactive" card with
    | error err =>
      refine Or.inr (Or.inl ⟨card, err, rfl, hS, ?_⟩)
      simp only [hS]
    | ok resp =>
      refine Or.inr (Or.inr ⟨card, resp, rfl, hS, ?_⟩)
      simp only [hS]
      by_cases h200 : resp.StatusCode = 200 <;> simp [h200]

/-- C2: whatever the rendering and the webhook call do, the map `History` refers to
holds after `sendToRobot` exactly what it held before: the same map, so the same
sent-time, or none, for every key. -/
theorem sendToRobot_History (ext : Externals) (f : Feishu) (msg : FeishuMessage)
    (feishuRobot serviceCreator : String) :
    (sendToRobot ext f msg feishuRobot serviceCreator).History = f.History ∧
    ∀ key, mapLookup (sendToRobot ext f msg feishuRobot serviceCreator).History key =
      mapLookup f.History key := by
  have h : (sendToRobot ext f msg feishuRobot serviceCreator).History = f.History := by
    rcases sendToRobot_cases ext f msg feishuRobot serviceCreator with
      ⟨_, _, h⟩ | ⟨_, _, _, _, h⟩ | ⟨_, _, _, _, h⟩ <;> rw [h]
  exact ⟨h, fun key => by rw [h]⟩

/-- The error result of `sendToRobot`: nil exactly when the card rendered and
`SendMessage` returned no error, whatever the status code of the response. -/
theorem sendToRobot_err_none_iff (ext : Externals) (f : Feishu) (msg : FeishuMessage)
    (feishuRobot serviceCreator : String) :
    (sendToRobot ext f msg feishuRobot serviceCreator).err = none ↔
      ∃ card resp,
        Render ext (ext.Dedent tmpl)
          [("TITLE", msg.Title), ("TEXT", msg.Text), ("ADDRESS", msg.Address)] = .ok card ∧
        ext.SendMessage
          (f.WebhookUrl ++ "/" ++ (if feishuRobot = "" then f.DefaultRobot else feishuRobot))
          "interactive" card = .ok resp := by
  rcases sendToRobot_cases ext f msg feishuRobot serviceCreator with
    ⟨err, hR, h⟩ | ⟨card, err, hR, hS, h⟩ | ⟨card, resp, hR, hS, h⟩
  · rw [h, hR]; simp
  · rw [h, hR]; simp [hS]
  · rw [h, hR]; simp [hS]

/-- C1 fails on the code: the card renders, `SendMessage` returns no error and a
response with status 500, and `sendToRobot` returns a nil error. -/
theorem sendToRobot_status_500_nil :
    Render extStatus500 (extStatus500.Dedent tmpl)
        [("TITLE", msgCrash.Title), ("TEXT", msgCrash.Text), ("ADDRESS", msgCrash.Address)]
      = .ok "Pod Crashns/a restartedhttps://example.org/ns/a" ∧
    extStatus500.SendMessage
        ((NewFeishu envUnset).WebhookUrl ++ "/" ++ (NewFeishu envUnset).DefaultRobot)
        "interactive" "Pod Crashns/a restartedhttps://example.org/ns/a"
      = .ok { StatusCode := 500 } ∧
    (sendToRobot extStatus500 (NewFeishu envUnset) msgCrash "" "").err = none := by
  exact ⟨rfl, rfl, rfl⟩

/-- C9: `sendToRobot` executes the template on the title, text and address of the
message. When that fails it calls no webhook and returns the rendering error. When
it gives a card, the one call of `SendMessage` is made with the address
`WebhookUrl + "/" + robot`, the type `interactive` and that card, where `robot` is
`feishuRobot` when that is non-empty and `DefaultRobot` otherwise, and the returned
error is decided by what `SendMessage` answers for exactly these arguments. The whole
result is the same for any two values of `serviceCreator`. -/
theorem sendToRobot_address (ext : Externals) (f : Feishu) (msg : FeishuMessage)
    (feishuRobot serviceCreator serviceCreator2 : String) :
    (∀ e, ext.Execute (ext.Dedent tmpl)
          [("TITLE", msg.Title), ("TEXT", msg.Text), ("ADDRESS", msg.Address)] = .error e →
      sendToRobot ext f msg feishuRobot serviceCreator =
        { err := some { msg := "failed to render template" }, History := f.History,
          sent := [], log := [] }) ∧
    (∀ card, ext.Execute (ext.Dedent tmpl)
          [("TITLE", msg.Title), ("TEXT", msg.Text), ("ADDRESS", msg.Address)] = .ok card →
      (sendToRobot ext f msg feishuRobot serviceCreator).sent =
        [{ url := f.WebhookUrl ++ "/" ++
              (if feishuRobot = "" then f.DefaultRobot else feishuRobot),
           msgType := "interactive", content := card }] ∧
      (∀ e, ext.SendMessage
            (f.WebhookUrl ++ "/" ++ (if feishuRobot = "" then f.DefaultRobot else feishuRobot))
            "interactive" card = .error e →
        (sendToRobot ext f msg feishuRobot serviceCreator).err = some e) ∧
      (∀ resp, ext.SendMessage
            (f.WebhookUrl ++ "/" ++ (if feishuRobot = "" then f.DefaultRobot else feishuRobot))
            "interactive" card = .ok resp →
        (sendToRobot ext f msg feishuRobot serviceCreator).err = none)) ∧
    sendToRobot ext f msg feishuRobot serviceCreator =
      sendToRobot ext f msg feishuRobot serviceCreator2 := by
  refine ⟨?_, ?_, rfl⟩
  · intro e hE
    rcases sendToRobot_cases ext f msg feishuRobot serviceCreator with
      ⟨err, hR, h⟩ | ⟨card, err, hR, hS, h⟩ | ⟨card, resp, hR, hS, h⟩
    · simp only [Render, hE, Except.error.injEq] at hR
      rw [h, ← hR]
    · simp only [Render, hE, reduceCtorEq] at hR
    · simp only [Render, hE, reduceCtorEq] at hR
  · intro card hE
    rcases sendToRobot_cases ext f msg feishuRobot serviceCreator with
      ⟨err, hR, h⟩ | ⟨card2, err, hR, hS, h⟩ | ⟨card2, resp, hR, hS, h⟩
    · simp only [Render, hE, reduceCtorEq] at hR
    · simp only [Render, hE, Except.ok.injEq] at hR
      subst hR
      rw [h]
      refine ⟨rfl, fun e he => ?_, fun resp he => ?_⟩
      · rw [hS] at he
        simp only [Except.error.injEq] at he
        rw [he]
      · rw [hS] at he
        exact absurd he (by simp)
    · simp only [Render, hE, Except.ok.injEq] at hR
      subst hR
      rw [h]
      refine ⟨rfl, fun e he => ?_, fun resp he => rfl⟩
      rw [hS] at he
      exact absurd he (by simp)

/-- With libraries that accept only the robot `robot-7`: a call for `robot-7` sends
the card there and returns nil, and a call with no robot goes to the default robot
and returns that webhook's error. -/
theorem sendToRobot_address_at_robot_7 :
    (sendToRobot extOnlyRobot7 (NewFeishu envUnset) msgCrash "robot-7" "alice").sent =
      [{ url := "https://open.feishu.cn/open-apis/bot/v2/hook/robot-7",
         msgType := "interactive",
         content := "Pod Crashns/a restartedhttps://example.org/ns/a" }] ∧
    (sendToRobot extOnlyRobot7 (NewFeishu envUnset) msgCrash "robot-7" "alice").err = none ∧
    (sendToRobot extOnlyRobot7 (NewFeishu envUnset) msgCrash "" "alice").sent =
      [{ url := "https://open.feishu.cn/open-apis/bot/v2/hook/8366b2d1-ffc8-4081-8f2a-2f26c1bd114b",
         msgType := "interactive",
         content := "Pod Crashns/a restartedhttps://example.org/ns/a" }] ∧
    (sendToRobot extOnlyRobot7 (NewFeishu envUnset) msgCrash "" "alice").err =
      some { msg := "unknown robot" } :=
  ⟨((sendToRobot_address extOnlyRobot7 (NewFeishu envUnset) msgCrash "robot-7" "alice" "bob").2.1
      "Pod Crashns/a restartedhttps://example.org/ns/a" rfl).1,
   ((sendToRobot_address extOnlyRobot7 (NewFeishu envUnset) msgCrash "robot-7" "alice" "bob").2.1
      "Pod Crashns/a restartedhttps://example.org/ns/a" rfl).2.2 { StatusCode := 200 } rfl,
   ((sendToRobot_address extOnlyRobot7 (NewFeishu envUnset) msgCrash "" "alice" "bob").2.1
      "Pod Crashns/a restartedhttps://example.org/ns/a" rfl).1,
   ((sendToRobot_address extOnlyRobot7 (NewFeishu envUnset) msgCrash "" "alice" "bob").2.1
      "Pod Crashns/a restartedhttps://example.org/ns/a" rfl).2.1 { msg := "unknown robot" } rfl⟩

/-! ## The backend switch -/

theorem NewFeishu_ne_zero (env : Environ) : NewFeishu env ≠ Feishu.zero := by
  intro h
  have h2 : (NewFeishu env).History = Feishu.zero.History := by rw [h]
  exact absurd h2 (by simp [NewFeishu, Feishu.zero, makeMap])

/-- C8: the switch of `main` handles every channel name: `notify` is `slack` exactly
when the name is `slack` and is `feishu` for every other name; for `slack` the `slack`
field is the value of `NewSlack` and the `feishu` field keeps its zero value, for every
other name the `feishu` field is the value of `NewFeishu` and the `slack` field keeps
its zero value. -/
theorem notifySwitch_total (P : SlackPkg) (env : Environ) (s : String) :
    ((notifySwitch P env s).notify = "slack" ↔ s = "slack") ∧
    (s ≠ "slack" → (notifySwitch P env s).notify = "feishu") ∧
    (s = "slack" →
      (notifySwitch P env s).slack = P.NewSlack env ∧
      (notifySwitch P env s).feishu = Feishu.zero) ∧
    (s ≠ "slack" →
      (notifySwitch P env s).feishu = NewFeishu env ∧
      (notifySwitch P env s).slack = P.zero) := by
  unfold notifySwitch
  by_cases h1 : s = "feishu"
  · subst h1
    have hne : ¬ ("feishu" = "slack") := by decide
    simp [hne]
  · by_cases h2 : s = "slack"
    · subst h2
      simp
    · simp [h1, h2]

/-- The switch at the names `slack`, `feishu` and an unknown name. -/
theorem notifySwitch_total_at_names :
    (notifySwitch slackPkgStr envMuteTooLarge "slack").notify = "slack" ∧
    (notifySwitch slackPkgStr envMuteTooLarge "slack").feishu = Feishu.zero ∧
    (notifySwitch slackPkgStr envMuteTooLarge "feishu").notify = "feishu" ∧
    (notifySwitch slackPkgStr envMuteTooLarge "teams").notify = "feishu" ∧
    (notifySwitch slackPkgStr envMuteTooLarge "teams").feishu = NewFeishu envMuteTooLarge :=
  ⟨(notifySwitch_total slackPkgStr envMuteTooLarge "slack").1.2 rfl,
   ((notifySwitch_total slackPkgStr envMuteTooLarge "slack").2.2.1 rfl).2,
   (notifySwitch_total slackPkgStr envMuteTooLarge "feishu").2.1 (by decide),
   (notifySwitch_total slackPkgStr envMuteTooLarge "teams").2.1 (by decide),
   ((notifySwitch_total slackPkgStr envMuteTooLarge "teams").2.2.2 (by decide)).1⟩

/-! ## main -/

theorem parseOneFlag_args (f : FlagSet) (name : String) (hasValue : Bool) (value : String) :
    (parseOneFlag f name hasValue value).2.2.args.length ≤ f.args.length := by
  unfold parseOneFlag
  split_ifs <;> try exact Nat.le_refl _
  split
  · rename_i v rest h
    rw [h]
    exact Nat.le_succ _
  · exact Nat.le_refl _

theorem parseOne_cases (f : FlagSet) :
    (parseOne f).1 = false ∨
    ∃ s rest name hasValue value, f.args = s :: rest ∧
      parseOne f = parseOneFlag { f with args := rest } name hasValue value := by
  unfold parseOne
  split
  · exact Or.inl rfl
  · rename_i s rest h
    split
    · exact Or.inl rfl
    · exact Or.inl rfl
    · rename_i c0 c1 more hs
      split
      · exact Or.inl rfl
      · split
        · exact Or.inl rfl
        · dsimp only
          generalize (if c1 = '-' then more else c1 :: more) = name
          split
          · exact Or.inl rfl
          · split
            · exact Or.inl rfl
            · split
              · exact Or.inr ⟨_, _, _, _, _, h, rfl⟩
              · exact Or.inr ⟨_, _, _, _, _, h, rfl⟩

/-- A step of `parseOne` that sees a flag consumes at least one argument. -/
theorem parseOne_seen_lt (f : FlagSet) (h : (parseOne f).1 = true) :
    (parseOne f).2.2.args.length < f.args.length := by
  rcases parseOne_cases f with h0 | ⟨s, rest, name, hasValue, value, hargs, heq⟩
  · rw [h0] at h
    exact absurd h (by decide)
  · rw [heq, hargs]
    have := parseOneFlag_args { f with args := rest } name hasValue value
    simp only [List.length_cons]
    exact Nat.lt_succ_of_le this

/-- The loop of `Parse` ends within one step more than there are arguments. -/
theorem parseLoop_isSome (fuel : Nat) (f : FlagSet) (h : f.args.length < fuel) :
    (parseLoop fuel f).isSome = true := by
  induction fuel generalizing f with
  | zero => exact absurd h (Nat.not_lt_zero _)
  | succ n ih =>
    unfold parseLoop
    have hlt := parseOne_seen_lt f
    rcases hp : parseOne f with ⟨seen, err, g⟩
    rw [hp] at hlt
    cases seen with
    | true =>
      exact ih g (by have := hlt rfl; simp only at this; omega)
    | false =>
      cases err <;> rfl

/-- The method `Parse` always comes to an end. -/
theorem Parse_isSome (f : FlagSet) (arguments : List String) :
    (Parse f arguments).isSome = true :=
  parseLoop_isSome _ _ (Nat.lt_succ_self _)

/-- With only `kubeconfig` defined, `Parse` rejects `-notify-channel=slack`. -/
theorem Parse_notify_channel (dflt : String) :
    Parse { formal := [("kubeconfig", dflt)], args := [] } ["-notify-channel=slack"] =
      some (.error (.failf "flag provided but not defined: -notify-channel")) := by
  rfl

/-- C5 fails on the code: `main` parses the command line before `notify-channel` is
defined, so with `-notify-channel=slack` on the command line the process exits with
status 2 inside `flag.Parse` and `NewController` is never called. -/
theorem main_notify_channel_slack (P : SlackPkg) (K : ClientGo) (env : Environ) :
    main P K env ["-notify-channel=slack"] = some (.exit 2) := by
  unfold main
  by_cases h : K.HomeDir = ""
  · simp only [h, ne_eq, not_true_eq_false, if_false, Parse_notify_channel]
  · simp only [h, ne_eq, not_false_eq_true, if_true, Parse_notify_channel]

/-- Whenever `main` reaches `NewController`, the `NotifyOption` it hands over is the
one the switch builds for the default channel name, so its `notify` is `feishu`. -/
theorem main_controller_notify (P : SlackPkg) (K : ClientGo) (env : Environ)
    (args : List String) (clientset : K.Clientset) (no : NotifyOption P)
    (h : main P K env args = some (.controller clientset no)) :
    no = notifySwitch P env "feishu" ∧ no.notify = "feishu" := by
  have key : no = notifySwitch P env "feishu" := by
    unfold main at h
    dsimp only at h
    split at h
    · exact absurd h (by simp)
    · exact absurd h (by simp)
    · exact absurd h (by simp)
    · split at h
      · exact absurd h (by simp)
      · split at h
        · exact absurd h (by simp)
        · simp only [Option.some.injEq, Outcome.controller.injEq] at h
          exact h.2.symm
  exact ⟨key, by rw [key]; rfl⟩

/-- The function `main` always comes to one of its outcomes. -/
theorem main_isSome (P : SlackPkg) (K : ClientGo) (env : Environ) (args : List String) :
    (main P K env args).isSome = true := by
  unfold main
  dsimp only
  have hp := Parse_isSome
    (if K.HomeDir ≠ "" then
      ({ formal := [("kubeconfig", K.Join K.HomeDir ".kube" "config")], args := [] } : FlagSet)
    else { formal := [("kubeconfig", "")], args := [] }) args
  split
  · rename_i h0
    rw [h0] at hp
    exact absurd hp (by simp)
  · rfl
  · rfl
  · split
    · rfl
    · split <;> rfl

end PodRestart
